import Mathlib

/-!
Shallow embedding of `src/adk_docker_uv/utils/log_config.py`
(`setup_file_logging`) and of the pieces of the Python standard library it
relies on (level filtering, `{}`-style record formatting, `Path.mkdir`,
`RotatingFileHandler` rotation), modelled from the specification where the
behaviour lives outside this repository.
-/

set_option autoImplicit false

namespace LogConfig

/-! ## Log records and levels -/

/-- A log record, mirroring the attributes of Python `logging.LogRecord`
that the formats in this repository reference. -/
structure LogRecord where
  name : String
  levelno : Nat
  levelname : String
  message : String
  asctime : String
  process : Nat
  funcName : String
  lineno : Nat
  deriving DecidableEq

/-- The fixed set of valid level names checked by `setup_file_logging`
(source line 31). -/
def validLogLevels : List String :=
  ["DEBUG", "INFO", "WARNING", "ERROR", "CRITICAL"]

/-- Numeric severity of a level name, as in Python `logging`
(DEBUG=10, INFO=20, WARNING=30, ERROR=40, CRITICAL=50). -/
def levelToNum (level : String) : Nat :=
  match level with
  | "DEBUG" => 10
  | "INFO" => 20
  | "WARNING" => 30
  | "ERROR" => 40
  | "CRITICAL" => 50
  | _ => 0

/-- The warning line printed to standard output on an invalid level
(source line 32). -/
def warnLine (log_level : String) : String :=
  "WARNING: Received log_level: \x27" ++ log_level ++
    "\x27. Defaulting to \x27INFO\x27."

/-- Level validation with fallback (source lines 30-33): returns the
resolved level and the list of lines printed to standard output. -/
def resolveLevel (log_level : String) : String × List String :=
  if log_level ∈ validLogLevels then (log_level, [])
  else ("INFO", [warnLine log_level])

/-! ## `{}`-style format rendering

Modelled from the spec: Python `logging.Formatter` in curly-brace style
renders a record through `str.format`, substituting `field` and
`field:>N` placeholders written in braces with record attributes; this
machinery is standard-library code, not part of this repository. -/

/-- One token of a parsed `{}`-style template: a literal character or a
replacement field with its format spec. -/
inductive FmtTok where
  | lit : Char → FmtTok
  | field : String → String → FmtTok
  deriving DecidableEq

/-- Scan the characters of a replacement field up to the closing brace,
returning the field text and the remaining characters. -/
def splitField : List Char → List Char × List Char
  | [] => ([], [])
  | c :: rest =>
    if c = '\x7d' then ([], rest)
    else
      let p := splitField rest
      (c :: p.1, p.2)

/-- Name part of a replacement field (before the colon). -/
def fieldName (cs : List Char) : String :=
  String.mk (cs.takeWhile (fun c => c ≠ ':'))

/-- Format-spec part of a replacement field (after the colon). -/
def fieldSpec (cs : List Char) : String :=
  String.mk ((cs.dropWhile (fun c => c ≠ ':')).drop 1)

/-- Fuel-driven tokenizer for a `{}`-style template. -/
def parseFormatAux : Nat → List Char → List FmtTok
  | 0, _ => []
  | _, [] => []
  | fuel + 1, c :: rest =>
    if c = '\x7b' then
      FmtTok.field (fieldName (splitField rest).1) (fieldSpec (splitField rest).1)
        :: parseFormatAux fuel (splitField rest).2
    else
      FmtTok.lit c :: parseFormatAux fuel rest

/-- Tokenize a `{}`-style template. -/
def parseFormat (tmpl : String) : List FmtTok :=
  parseFormatAux tmpl.toList.length tmpl.toList

/-- Right-align a string in a field of the given width, padding with
spaces on the left, as Python `{x:>N}` does. -/
def rightAlign (width : Nat) (s : String) : String :=
  String.mk (List.replicate (width - s.length) ' ') ++ s

/-- Decimal value of the digit characters of a format-spec width. -/
def specWidth (ds : List Char) : Nat :=
  ds.foldl (fun n c => n * 10 + (c.toNat - 48)) 0

/-- Apply a format spec (empty or `>N`) to a rendered value. -/
def applySpec (spec : String) (s : String) : String :=
  match spec.data with
  | [] => s
  | '>' :: ds => rightAlign (specWidth ds) s
  | _ => s

/-- The string value of a record attribute referenced by a template. -/
def fieldVal (r : LogRecord) (name : String) : String :=
  match name with
  | "name" => r.name
  | "levelno" => toString r.levelno
  | "levelname" => r.levelname
  | "message" => r.message
  | "asctime" => r.asctime
  | "process" => toString r.process
  | "funcName" => r.funcName
  | "lineno" => toString r.lineno
  | _ => ""

/-- Render a token list against a record. -/
def renderToks (r : LogRecord) : List FmtTok → String
  | [] => ""
  | FmtTok.lit c :: ts => String.singleton c ++ renderToks r ts
  | FmtTok.field n sp :: ts => applySpec sp (fieldVal r n) ++ renderToks r ts

/-- Render a `{}`-style template against a record. -/
def renderFormat (tmpl : String) (r : LogRecord) : String :=
  renderToks r (parseFormat tmpl)

/-- The default format template of `setup_file_logging`
(source lines 35-39). -/
def defaultLogFormat : String :=
  "[\x7basctime\x7d] [\x7bprocess\x7d] [\x7blevelname:>8\x7d] " ++
    "[\x7bname\x7d.\x7bfuncName\x7d:\x7blineno:>5\x7d] \x7bmessage\x7d"

/-! ## Filesystem and logger state

Modelled from the spec: `Path.mkdir(parents=True, exist_ok=True)` and the
file opening done by `RotatingFileHandler.__init__` are standard-library
behaviours; failures there propagate as fatal startup errors. Paths are
represented as lists of segments; `[]` (the current directory) always
exists. -/

/-- A filesystem: the set of existing directories, the open files with
their lines, and the paths at which creation is denied (permissions,
read-only filesystem). -/
structure FileSystem where
  dirs : List (List String)
  files : List (List String × List String)
  forbidden : List (List String)
  deriving DecidableEq

/-- Create a single directory, as Python `Path.mkdir` without parents:
error when it exists unless `exist_ok`, error when creation is denied. -/
def mkdirOne (fs : FileSystem) (p : List String) (exist_ok : Bool) :
    Except String FileSystem :=
  if p ∈ fs.dirs then
    if exist_ok then .ok fs else .error "FileExistsError"
  else if p ∈ fs.forbidden then .error "PermissionError"
  else .ok { fs with dirs := p :: fs.dirs }

/-- The nonempty prefixes of a path, shortest first. -/
def prefixesOf (p : List String) : List (List String) :=
  (List.range p.length).map (fun i => p.take (i + 1))

/-- Create a sequence of directories in order, stopping at the first
error; each is created with `exist_ok`. -/
def mkdirSeq (fs : FileSystem) : List (List String) → Except String FileSystem
  | [] => .ok fs
  | p :: ps =>
    match mkdirOne fs p true with
    | .error e => .error e
    | .ok fs1 => mkdirSeq fs1 ps

/-- `Path.mkdir(parents=True, exist_ok=True)` (source line 42): create the
path and every missing parent, never failing on an existing directory. -/
def mkdirParentsExistOk (fs : FileSystem) (p : List String) :
    Except String FileSystem :=
  mkdirSeq fs (prefixesOf p)

/-- Open a file for appending, creating it when absent, as the rotating
handler constructor does: error when creation is denied or the parent
directory is missing. -/
def openFileAppend (fs : FileSystem) (p : List String) :
    Except String FileSystem :=
  if p ∈ fs.forbidden then .error "PermissionError"
  else if p.dropLast ≠ [] ∧ p.dropLast ∉ fs.dirs then .error "FileNotFoundError"
  else if (fs.files.lookup p).isSome then .ok fs
  else .ok { fs with files := (p, []) :: fs.files }

/-- A file handler as installed by `setup_file_logging`: a rotating file
handler bound to a path, with its formatter template and rotation
parameters (source lines 50-56). -/
structure Handler where
  path : List String
  fmt : String
  maxBytes : Nat
  backupCount : Nat
  encoding : String
  deriving DecidableEq

/-- The process-wide root logger: its minimum severity and its attached
handlers. -/
structure RootLogger where
  level : Nat
  handlers : List Handler
  deriving DecidableEq

/-- The arguments of `setup_file_logging`, with the source's defaults
(source lines 8-16); the directory is given as path segments. -/
structure Args where
  log_level : String
  log_format : Option String := none
  log_dir : List String := [".log"]
  log_filename : String := "app.log"
  max_bytes : Nat := 1024 * 1024
  encoding : String := "utf-8"
  backup_count : Nat := 5
  deriving DecidableEq

/-- `setup_file_logging` (source lines 8-60): validate the level with
fallback, pick the format, create the log directory, open the log file,
build the handler and attach it to the root logger. Returns the new
filesystem, the new root logger and the lines printed to standard
output; filesystem failures propagate as errors. -/
def setup_file_logging (a : Args) (fs : FileSystem) (root : RootLogger) :
    Except String (FileSystem × RootLogger × List String) :=
  let resolved := resolveLevel a.log_level
  let log_level := resolved.1
  let printed := resolved.2
  let log_format := a.log_format.getD defaultLogFormat
  match mkdirParentsExistOk fs a.log_dir with
  | .error e => .error e
  | .ok fs1 =>
    let log_path := a.log_dir ++ [a.log_filename]
    match openFileAppend fs1 log_path with
    | .error e => .error e
    | .ok fs2 =>
      let handler : Handler :=
        { path := log_path, fmt := log_format, maxBytes := a.max_bytes,
          backupCount := a.backup_count, encoding := a.encoding }
      .ok (fs2,
        { level := levelToNum log_level,
          handlers := root.handlers ++ [handler] },
        printed)

/-! ## Emitting records

Modelled from the spec: a message at severity at or above the root
logger's level is written, formatted per the handler's template, to each
attached handler's file; a message below that severity produces no
output. -/

/-- Append a line to the file at a path, creating the file when absent. -/
def appendLine : List (List String × List String) → List String → String →
    List (List String × List String)
  | [], p, line => [(p, [line])]
  | (q, ls) :: rest, p, line =>
    if q = p then (q, ls ++ [line]) :: rest
    else (q, ls) :: appendLine rest p line

/-- The lines of the file at a path (empty when the file is absent). -/
def fileLines (fs : FileSystem) (p : List String) : List String :=
  (fs.files.lookup p).getD []

/-- Deliver one record: when its severity reaches the root level, each
handler appends the record rendered with its own template to its file;
otherwise nothing changes. -/
def emitRecord (root : RootLogger) (fs : FileSystem) (rec : LogRecord) :
    FileSystem :=
  if root.level ≤ rec.levelno then
    { fs with
      files := root.handlers.foldl
        (fun files h => appendLine files h.path (renderFormat h.fmt rec))
        fs.files }
  else fs

/-! ## Rotation

Modelled from the spec: the rotating file handler closes the active file
when a write would push it past `maxBytes`, renames it into a numbered
backup sequence (most recent = `.1`, older backups shift up, at most
`backupCount` kept, oldest discarded beyond that), and opens a fresh
file for the pending write. -/

/-- Disk state of a rotating handler: the size in bytes of the active
file, and the sizes of the backups `filename.1, filename.2, ...`
(index 0 = `.1` = most recent). -/
structure RotState where
  active : Nat
  backups : List Nat
  deriving DecidableEq

/-- One write of `len` bytes through the rotating handler: roll over
first when the write would push the active file past `maxBytes`. -/
def rotEmit (maxBytes backupCount : Nat) (s : RotState) (len : Nat) :
    RotState :=
  if 0 < maxBytes ∧ maxBytes < s.active + len then
    { active := len, backups := (s.active :: s.backups).take backupCount }
  else
    { active := s.active + len, backups := s.backups }

/-- A sequence of writes through the rotating handler. -/
def rotRun (maxBytes backupCount : Nat) (s : RotState) (writes : List Nat) :
    RotState :=
  writes.foldl (rotEmit maxBytes backupCount) s

/-- The fresh disk state right after the handler is installed. -/
def rotInit : RotState := { active := 0, backups := [] }

/-! ## Helper lemmas -/

lemma applySpec_empty (s : String) : applySpec "" s = s := rfl

lemma applySpec_r8 (s : String) : applySpec ">8" s = rightAlign 8 s := rfl

lemma applySpec_r5 (s : String) : applySpec ">5" s = rightAlign 5 s := rfl

lemma data_append (a b : String) : (a ++ b).data = a.data ++ b.data := rfl

lemma data_push (a : String) (c : Char) : (a.push c).data = a.data ++ [c] := rfl

lemma data_lbrack : ("[" : String).data = ['['] := rfl

lemma data_rlb : ("] [" : String).data = [']', ' ', '['] := rfl

lemma data_rb_sp : ("] " : String).data = [']', ' '] := rfl

lemma data_dot : ("." : String).data = ['.'] := rfl

lemma data_colon : (":" : String).data = [':'] := rfl

/-- The default template renders exactly bracketed timestamp, process,
right-aligned level, `name.funcName:lineno` and the message. -/
lemma renderFormat_default (r : LogRecord) :
    renderFormat defaultLogFormat r =
      "[" ++ r.asctime ++ "] [" ++ toString r.process ++ "] ["
        ++ rightAlign 8 r.levelname ++ "] [" ++ r.name ++ "." ++ r.funcName
        ++ ":" ++ rightAlign 5 (toString r.lineno) ++ "] " ++ r.message := by
  show renderToks r (parseFormat defaultLogFormat) = _
  have h : parseFormat defaultLogFormat =
      [FmtTok.lit '[', FmtTok.field "asctime" "", FmtTok.lit ']', FmtTok.lit ' ',
       FmtTok.lit '[', FmtTok.field "process" "", FmtTok.lit ']', FmtTok.lit ' ',
       FmtTok.lit '[', FmtTok.field "levelname" ">8", FmtTok.lit ']', FmtTok.lit ' ',
       FmtTok.lit '[', FmtTok.field "name" "", FmtTok.lit '.', FmtTok.field "funcName" "",
       FmtTok.lit ':', FmtTok.field "lineno" ">5", FmtTok.lit ']', FmtTok.lit ' ',
       FmtTok.field "message" ""] := by decide
  rw [h]
  apply String.ext
  simp [renderToks, applySpec_empty, applySpec_r8, applySpec_r5, fieldVal,
    String.singleton, data_append, data_push, data_lbrack, data_rlb, data_rb_sp,
    data_dot, data_colon]

lemma mkdirOne_ok_mem {fs : FileSystem} {p : List String} {fs1 : FileSystem}
    (h : mkdirOne fs p true = .ok fs1) :
    p ∈ fs1.dirs ∧ (∀ q ∈ fs.dirs, q ∈ fs1.dirs) ∧ fs1.forbidden = fs.forbidden
      ∧ fs1.files = fs.files := by
  unfold mkdirOne at h
  by_cases hp : p ∈ fs.dirs
  · simp [hp] at h
    subst h
    exact ⟨hp, fun q hq => hq, rfl, rfl⟩
  · by_cases hf : p ∈ fs.forbidden
    · simp [hp, hf] at h
    · simp [hp, hf] at h
      subst h
      exact ⟨List.mem_cons_self _ _, fun q hq => List.mem_cons_of_mem _ hq, rfl, rfl⟩

lemma mkdirSeq_ok_mem : ∀ (ps : List (List String)) (fs fs' : FileSystem),
    mkdirSeq fs ps = .ok fs' →
    (∀ p ∈ ps, p ∈ fs'.dirs) ∧ (∀ q ∈ fs.dirs, q ∈ fs'.dirs)
      ∧ fs'.forbidden = fs.forbidden ∧ fs'.files = fs.files
  | [], fs, fs', h => by
    simp [mkdirSeq] at h
    subst h
    exact ⟨by simp, fun q hq => hq, rfl, rfl⟩
  | p :: ps, fs, fs', h => by
    unfold mkdirSeq at h
    cases h1 : mkdirOne fs p true with
    | error e => rw [h1] at h; exact absurd h (by simp)
    | ok fs1 =>
      rw [h1] at h
      obtain ⟨hp, hmono, hforb, hfiles⟩ := mkdirOne_ok_mem h1
      obtain ⟨hps, hmono', hforb', hfiles'⟩ := mkdirSeq_ok_mem ps fs1 fs' h
      refine ⟨?_, fun q hq => hmono' q (hmono q hq), hforb'.trans hforb,
        hfiles'.trans hfiles⟩
      intro q hq
      rcases List.mem_cons.mp hq with hq | hq
      · subst hq; exact hmono' q hp
      · exact hps q hq

lemma mkdirSeq_ok_of_no_forbidden : ∀ (ps : List (List String)) (fs : FileSystem),
    fs.forbidden = [] → ∃ fs', mkdirSeq fs ps = .ok fs'
  | [], fs, _ => ⟨fs, rfl⟩
  | p :: ps, fs, h => by
    unfold mkdirSeq
    by_cases hp : p ∈ fs.dirs
    · have h1 : mkdirOne fs p true = .ok fs := by simp [mkdirOne, hp]
      rw [h1]
      exact mkdirSeq_ok_of_no_forbidden ps fs h
    · have hf : p ∉ fs.forbidden := by simp [h]
      have h1 : mkdirOne fs p true = .ok { fs with dirs := p :: fs.dirs } := by
        simp [mkdirOne, hp, hf]
      rw [h1]
      exact mkdirSeq_ok_of_no_forbidden ps _ h

lemma mkdirSeq_id : ∀ (ps : List (List String)) (fs : FileSystem),
    (∀ p ∈ ps, p ∈ fs.dirs) → mkdirSeq fs ps = .ok fs
  | [], fs, _ => rfl
  | p :: ps, fs, h => by
    have hp : p ∈ fs.dirs := h p (by simp)
    have h1 : mkdirOne fs p true = .ok fs := by simp [mkdirOne, hp]
    unfold mkdirSeq
    rw [h1]
    exact mkdirSeq_id ps fs (fun q hq => h q (List.mem_cons_of_mem _ hq))

lemma openFileAppend_ok_dirs {fs fs' : FileSystem} {p : List String}
    (h : openFileAppend fs p = .ok fs') :
    fs'.dirs = fs.dirs ∧ fs'.forbidden = fs.forbidden
      ∧ ∀ q, fileLines fs' q = fileLines fs q := by
  unfold openFileAppend at h
  by_cases h1 : p ∈ fs.forbidden
  · simp [h1] at h
  · by_cases h2 : p.dropLast ≠ [] ∧ p.dropLast ∉ fs.dirs
    · simp [h1, h2] at h
    · by_cases h3 : (fs.files.lookup p).isSome
      · simp [h1, h2, h3] at h
        subst h
        exact ⟨rfl, rfl, fun q => rfl⟩
      · simp [h1, h2, h3] at h
        subst h
        refine ⟨rfl, rfl, fun q => ?_⟩
        by_cases hq : q = p
        · subst hq
          have hnone : fs.files.lookup q = none := by
            cases hl : fs.files.lookup q with
            | none => rfl
            | some v => rw [hl] at h3; simp at h3
          simp [fileLines, List.lookup, hnone]
        · have hne : (q == p) = false := by simp [hq]
          simp [fileLines, List.lookup, hne]

lemma openFileAppend_ok_of (fs : FileSystem) (p : List String)
    (h1 : p ∉ fs.forbidden) (h2 : p.dropLast = [] ∨ p.dropLast ∈ fs.dirs) :
    ∃ fs', openFileAppend fs p = .ok fs' := by
  unfold openFileAppend
  have h2' : ¬(p.dropLast ≠ [] ∧ p.dropLast ∉ fs.dirs) := by
    rcases h2 with h2 | h2
    · simp [h2]
    · simp [h2]
  by_cases h3 : (fs.files.lookup p).isSome
  · exact ⟨fs, by simp [h1, h2', h3]⟩
  · exact ⟨{ fs with files := (p, []) :: fs.files }, by simp [h1, h2', h3]⟩


/-- The handler `setup_file_logging` constructs from its arguments. -/
def installedHandler (a : Args) : Handler :=
  { path := a.log_dir ++ [a.log_filename],
    fmt := a.log_format.getD defaultLogFormat,
    maxBytes := a.max_bytes,
    backupCount := a.backup_count,
    encoding := a.encoding }

lemma setup_ok_inv {a : Args} {fs : FileSystem} {root : RootLogger}
    {fs' : FileSystem} {root' : RootLogger} {printed : List String}
    (h : setup_file_logging a fs root = .ok (fs', root', printed)) :
    root' = { level := levelToNum (resolveLevel a.log_level).1,
              handlers := root.handlers ++ [installedHandler a] }
      ∧ printed = (resolveLevel a.log_level).2
      ∧ ∃ fs1, mkdirParentsExistOk fs a.log_dir = .ok fs1
          ∧ openFileAppend fs1 (a.log_dir ++ [a.log_filename]) = .ok fs' := by
  unfold setup_file_logging at h
  cases h1 : mkdirParentsExistOk fs a.log_dir with
  | error e => rw [h1] at h; exact absurd h (by simp)
  | ok fs1 =>
    rw [h1] at h
    dsimp only at h
    cases h2 : openFileAppend fs1 (a.log_dir ++ [a.log_filename]) with
    | error e => rw [h2] at h; exact absurd h (by simp)
    | ok fs2 =>
      rw [h2] at h
      simp only [Except.ok.injEq, Prod.mk.injEq] at h
      obtain ⟨hfs, hroot, hpr⟩ := h
      subst hfs
      exact ⟨hroot.symm, hpr.symm, fs1, rfl, h2⟩

lemma setup_ok_of_no_forbidden (a : Args) (fs : FileSystem) (root : RootLogger)
    (h : fs.forbidden = []) :
    ∃ fs', setup_file_logging a fs root =
      .ok (fs',
        { level := levelToNum (resolveLevel a.log_level).1,
          handlers := root.handlers ++ [installedHandler a] },
        (resolveLevel a.log_level).2)
      ∧ fs'.forbidden = [] ∧ (∀ q, fileLines fs' q = fileLines fs q)
      ∧ (∀ q ∈ fs.dirs, q ∈ fs'.dirs)
      ∧ (∀ q ∈ prefixesOf a.log_dir, q ∈ fs'.dirs) := by
  obtain ⟨fs1, h1⟩ := mkdirSeq_ok_of_no_forbidden (prefixesOf a.log_dir) fs h
  obtain ⟨hmem, hmono, hforb, hfiles⟩ := mkdirSeq_ok_mem _ _ _ h1
  have hforb1 : fs1.forbidden = [] := hforb.trans h
  have hdrop : (a.log_dir ++ [a.log_filename]).dropLast = a.log_dir := by
    simp
  have hopen : ∃ fs2, openFileAppend fs1 (a.log_dir ++ [a.log_filename]) = .ok fs2 := by
    apply openFileAppend_ok_of
    · simp [hforb1]
    · rw [hdrop]
      cases hd : a.log_dir with
      | nil => exact Or.inl rfl
      | cons x xs =>
        refine Or.inr (hmem _ ?_)
        rw [← hd]
        have hlen : 0 < a.log_dir.length := by simp [hd]
        refine List.mem_map.mpr ⟨a.log_dir.length - 1, ?_, ?_⟩
        · simp [List.mem_range]
          omega
        · rw [Nat.sub_add_cancel hlen, List.take_length]
  obtain ⟨fs2, h2⟩ := hopen
  obtain ⟨hdirs2, hforb2, hlines2⟩ := openFileAppend_ok_dirs h2
  refine ⟨fs2, ?_, hforb2.trans hforb1, ?_, ?_, ?_⟩
  · unfold setup_file_logging
    rw [show mkdirParentsExistOk fs a.log_dir = .ok fs1 from h1]
    dsimp only
    rw [h2]
    rfl
  · intro q
    rw [hlines2 q]
    show (fs1.files.lookup q).getD [] = (fs.files.lookup q).getD []
    rw [hfiles]
  · intro q hq
    rw [hdirs2]
    exact hmono q hq
  · intro q hq
    rw [hdirs2]
    exact hmem q hq

lemma lookup_appendLine_self :
    ∀ (files : List (List String × List String)) (p : List String) (line : String),
      (appendLine files p line).lookup p = some ((files.lookup p).getD [] ++ [line])
  | [], p, line => by simp [appendLine, List.lookup]
  | (q, ls) :: rest, p, line => by
    by_cases hq : q = p
    · subst hq
      simp [appendLine, List.lookup]
    · have hne : (p == q) = false := by simp [Ne.symm hq]
      simp [appendLine, hq, List.lookup, hne]
      exact lookup_appendLine_self rest p line

lemma fileLines_emit_single {level : Nat} {h : Handler} (fs : FileSystem)
    (rec : LogRecord) (hlev : level ≤ rec.levelno) :
    fileLines (emitRecord ⟨level, [h]⟩ fs rec) h.path =
      fileLines fs h.path ++ [renderFormat h.fmt rec] := by
  unfold emitRecord
  rw [if_pos hlev]
  show ((appendLine fs.files h.path (renderFormat h.fmt rec)).lookup h.path).getD [] = _
  rw [lookup_appendLine_self]
  rfl

lemma emit_below {root : RootLogger} {fs : FileSystem} {rec : LogRecord}
    (h : rec.levelno < root.level) : emitRecord root fs rec = fs := by
  unfold emitRecord
  rw [if_neg (by omega)]

/-- The custom test template renders to its literal prefix followed by the
message. -/
lemma renderFormat_custom (r : LogRecord) :
    renderFormat "CUSTOM: \x7bmessage\x7d" r = "CUSTOM: " ++ r.message := by
  show renderToks r (parseFormat "CUSTOM: \x7bmessage\x7d") = _
  have h : parseFormat "CUSTOM: \x7bmessage\x7d" =
      [FmtTok.lit 'C', FmtTok.lit 'U', FmtTok.lit 'S', FmtTok.lit 'T',
       FmtTok.lit 'O', FmtTok.lit 'M', FmtTok.lit ':', FmtTok.lit ' ',
       FmtTok.field "message" ""] := by decide
  rw [h]
  apply String.ext
  simp [renderToks, applySpec_empty, fieldVal, String.singleton, data_append,
    data_push, show ("CUSTOM: " : String).data = ['C', 'U', 'S', 'T', 'O', 'M', ':', ' '] from rfl]

lemma rotRun_inv : ∀ (writes : List Nat) (B N : Nat) (s : RotState),
    0 < B → (∀ l ∈ writes, l ≤ B) → s.active ≤ B → s.backups.length ≤ N →
    (rotRun B N s writes).active ≤ B ∧ (rotRun B N s writes).backups.length ≤ N
  | [], B, N, s, _, _, ha, hb => ⟨ha, hb⟩
  | l :: ws, B, N, s, hB, hw, ha, hb => by
    have hl : l ≤ B := hw l (by simp)
    have hstep : rotRun B N s (l :: ws) = rotRun B N (rotEmit B N s l) ws := rfl
    rw [hstep]
    by_cases hc : 0 < B ∧ B < s.active + l
    · have he : rotEmit B N s l =
          { active := l, backups := (s.active :: s.backups).take N } := by
        unfold rotEmit
        rw [if_pos hc]
      rw [he]
      exact rotRun_inv ws B N _ hB (fun x hx => hw x (by simp [hx])) hl
        (by simp)
    · have he : rotEmit B N s l =
          { active := s.active + l, backups := s.backups } := by
        unfold rotEmit
        rw [if_neg hc]
      rw [he]
      have : s.active + l ≤ B := by omega
      exact rotRun_inv ws B N _ hB (fun x hx => hw x (by simp [hx])) this hb

lemma self_mem_prefixesOf {p : List String} (h : p ≠ []) : p ∈ prefixesOf p := by
  have hlen : 0 < p.length := List.length_pos.mpr h
  refine List.mem_map.mpr ⟨p.length - 1, ?_, ?_⟩
  · simp [List.mem_range]
    omega
  · rw [Nat.sub_add_cancel hlen, List.take_length]

/-- Concrete filesystem and root logger used by the witnesses. -/
def fsW : FileSystem := ⟨[], [], []⟩

def rootW : RootLogger := ⟨0, []⟩

/-- C1: for every input level, `setup_file_logging` checks it against the
fixed set of five level names; a member is used unchanged with no
diagnostic, a non-member prints one warning line naming the received
value and the fallback, resolves to INFO, and raises no error. -/
theorem claim_C1_level_validation_fallback (a : Args) (fs : FileSystem)
    (root : RootLogger) (hforb : fs.forbidden = []) :
    ∃ fs' root' printed,
      setup_file_logging a fs root = .ok (fs', root', printed) ∧
      (a.log_level ∈ validLogLevels →
        printed = [] ∧ root'.level = levelToNum a.log_level) ∧
      (a.log_level ∉ validLogLevels →
        printed = [warnLine a.log_level] ∧ root'.level = levelToNum "INFO" ∧
        ∃ u v w, warnLine a.log_level = u ++ a.log_level ++ v ++ "INFO" ++ w) := by
  obtain ⟨fs', hok, -⟩ := setup_ok_of_no_forbidden a fs root hforb
  refine ⟨fs', _, _, hok, ?_, ?_⟩
  · intro hmem
    simp [resolveLevel, hmem]
  · intro hmem
    refine ⟨?_, ?_, "WARNING: Received log_level: \x27", "\x27. Defaulting to \x27",
      "\x27.", ?_⟩
    · simp [resolveLevel, hmem]
    · simp [resolveLevel, hmem]
    · have hvw : ("\x27. Defaulting to \x27" ++ "INFO" ++ "\x27." : String) =
          "\x27. Defaulting to \x27INFO\x27." := by decide
      rw [warnLine, ← hvw]
      simp [String.append_assoc]

/-- Witness for C1 at the invalid level `"BOGUS"` and at the valid level
`"DEBUG"`. -/
theorem claim_C1_witness :
    (∃ fs' root' printed,
      setup_file_logging { log_level := "BOGUS" } fsW rootW = .ok (fs', root', printed) ∧
      ("BOGUS" ∈ validLogLevels →
        printed = [] ∧ root'.level = levelToNum "BOGUS") ∧
      ("BOGUS" ∉ validLogLevels →
        printed = [warnLine "BOGUS"] ∧ root'.level = levelToNum "INFO" ∧
        ∃ u v w, warnLine "BOGUS" = u ++ "BOGUS" ++ v ++ "INFO" ++ w)) ∧
    (∃ fs' root' printed,
      setup_file_logging { log_level := "DEBUG" } fsW rootW = .ok (fs', root', printed) ∧
      ("DEBUG" ∈ validLogLevels →
        printed = [] ∧ root'.level = levelToNum "DEBUG") ∧
      ("DEBUG" ∉ validLogLevels →
        printed = [warnLine "DEBUG"] ∧ root'.level = levelToNum "INFO" ∧
        ∃ u v w, warnLine "DEBUG" = u ++ "DEBUG" ++ v ++ "INFO" ++ w)) :=
  ⟨claim_C1_level_validation_fallback { log_level := "BOGUS" } fsW rootW rfl,
   claim_C1_level_validation_fallback { log_level := "DEBUG" } fsW rootW rfl⟩

/-- C10: the membership check is case-sensitive: `"info"` and `"Debug"`
are treated as invalid, trigger the printed fallback warning, and
resolve to INFO rather than the intended level. -/
theorem claim_C10_case_sensitive_level_check :
    resolveLevel "info" = ("INFO", [warnLine "info"]) ∧
    resolveLevel "Debug" = ("INFO", [warnLine "Debug"]) ∧
    (resolveLevel "Debug").1 ≠ "DEBUG" ∧
    levelToNum (resolveLevel "Debug").1 ≠ levelToNum "DEBUG" := by
  decide

/-- C2: when no format is supplied, the installed handler carries the
default template, and every rendered record contains, in order, the
timestamp, the process id, the level name right-aligned to 8
characters, the `name.funcName:lineno` location field, and the
message. -/
theorem claim_C2_default_format_structure (a : Args) (fs : FileSystem)
    (root : RootLogger) (fs' : FileSystem) (root' : RootLogger)
    (printed : List String) (hfmt : a.log_format = none)
    (hok : setup_file_logging a fs root = .ok (fs', root', printed)) :
    ∃ h : Handler, root'.handlers = root.handlers ++ [h]
      ∧ h.fmt = defaultLogFormat
      ∧ ∀ r : LogRecord, ∃ s0 s1 s2 s3 s4,
          renderFormat h.fmt r =
            s0 ++ r.asctime ++ s1 ++ toString r.process ++ s2
              ++ rightAlign 8 r.levelname ++ s3
              ++ (r.name ++ "." ++ r.funcName ++ ":"
                    ++ rightAlign 5 (toString r.lineno))
              ++ s4 ++ r.message := by
  obtain ⟨hroot, -, -⟩ := setup_ok_inv hok
  have hdf : (installedHandler a).fmt = defaultLogFormat := by
    simp [installedHandler, hfmt]
  refine ⟨installedHandler a, by rw [hroot], hdf, ?_⟩
  intro r
  refine ⟨"[", "] [", "] [", "] [", "] ", ?_⟩
  rw [hdf, renderFormat_default]
  simp [String.append_assoc]

/-- Witness for C2: a concrete run of `setup_file_logging` with no format
argument. -/
theorem claim_C2_witness :
    ∃ h : Handler,
      (⟨20, [{ path := [".log", "app.log"], fmt := defaultLogFormat,
               maxBytes := 1024 * 1024, backupCount := 5,
               encoding := "utf-8" }]⟩ : RootLogger).handlers =
        rootW.handlers ++ [h]
      ∧ h.fmt = defaultLogFormat
      ∧ ∀ r : LogRecord, ∃ s0 s1 s2 s3 s4,
          renderFormat h.fmt r =
            s0 ++ r.asctime ++ s1 ++ toString r.process ++ s2
              ++ rightAlign 8 r.levelname ++ s3
              ++ (r.name ++ "." ++ r.funcName ++ ":"
                    ++ rightAlign 5 (toString r.lineno))
              ++ s4 ++ r.message :=
  claim_C2_default_format_structure { log_level := "INFO" } fsW rootW
    ⟨[[".log"]], [([".log", "app.log"], [])], []⟩
    ⟨20, [{ path := [".log", "app.log"], fmt := defaultLogFormat,
            maxBytes := 1024 * 1024, backupCount := 5, encoding := "utf-8" }]⟩
    [] rfl rfl

/-- C6: the installed rotating handler is bound to exactly the path
`directory/filename`, the directory segments followed by the
filename. -/
theorem claim_C6_handler_path (a : Args) (fs : FileSystem)
    (root : RootLogger) (fs' : FileSystem) (root' : RootLogger)
    (printed : List String)
    (hok : setup_file_logging a fs root = .ok (fs', root', printed)) :
    ∃ h : Handler, root'.handlers = root.handlers ++ [h]
      ∧ h.path = a.log_dir ++ [a.log_filename] := by
  obtain ⟨hroot, -, -⟩ := setup_ok_inv hok
  exact ⟨installedHandler a, by rw [hroot], rfl⟩

/-- Witness for C6: a concrete run with the default directory and
filename. -/
theorem claim_C6_witness :
    ∃ h : Handler,
      (⟨20, [{ path := [".log", "app.log"], fmt := defaultLogFormat,
               maxBytes := 1024 * 1024, backupCount := 5,
               encoding := "utf-8" }]⟩ : RootLogger).handlers =
        rootW.handlers ++ [h]
      ∧ h.path = [".log"] ++ ["app.log"] :=
  claim_C6_handler_path { log_level := "INFO" } fsW rootW
    ⟨[[".log"]], [([".log", "app.log"], [])], []⟩
    ⟨20, [{ path := [".log", "app.log"], fmt := defaultLogFormat,
            maxBytes := 1024 * 1024, backupCount := 5, encoding := "utf-8" }]⟩
    [] rfl

/-- C7: `setup_file_logging` returns only its effects, and it fails with
an error exactly when creating the directory fails or, that succeeding,
opening the log file fails; the error propagates unchanged, with no
retry and no local recovery. -/
theorem claim_C7_error_propagation (a : Args) (fs : FileSystem)
    (root : RootLogger) (e : String) :
    setup_file_logging a fs root = .error e ↔
      (mkdirParentsExistOk fs a.log_dir = .error e ∨
       ∃ fs1, mkdirParentsExistOk fs a.log_dir = .ok fs1 ∧
         openFileAppend fs1 (a.log_dir ++ [a.log_filename]) = .error e) := by
  unfold setup_file_logging
  cases h1 : mkdirParentsExistOk fs a.log_dir with
  | error e1 =>
    dsimp only
    simp
  | ok fs1 =>
    dsimp only
    cases h2 : openFileAppend fs1 (a.log_dir ++ [a.log_filename]) with
    | error e2 =>
      simp [h2]
    | ok fs2 =>
      simp [h2]

/-- Repeated invocation of `setup_file_logging`, threading the filesystem
and root logger through each call. -/
def setupIter : Nat → Args → FileSystem → RootLogger →
    Except String (FileSystem × RootLogger × List String)
  | 0, _, fs, root => .ok (fs, root, [])
  | n + 1, a, fs, root =>
    match setup_file_logging a fs root with
    | .error e => .error e
    | .ok (fs1, root1, _) => setupIter n a fs1 root1

/-- C8: `setup_file_logging` is not idempotent: each successful call
appends one more handler to the root logger, so after `n` calls the
root logger carries `n` additional handlers. -/
theorem claim_C8_not_idempotent : ∀ (n : Nat) (a : Args) (fs : FileSystem)
    (root : RootLogger), fs.forbidden = [] →
    ∃ fs' root' printed, setupIter n a fs root = .ok (fs', root', printed) ∧
      ∃ hs : List Handler, root'.handlers = root.handlers ++ hs ∧ hs.length = n
  | 0, a, fs, root, _ => ⟨fs, root, [], rfl, [], by simp, rfl⟩
  | n + 1, a, fs, root, hforb => by
    obtain ⟨fs1, hok, hforb1, -⟩ := setup_ok_of_no_forbidden a fs root hforb
    obtain ⟨fs', root', printed, hiter, hs, hhs, hlen⟩ :=
      claim_C8_not_idempotent n a fs1
        { level := levelToNum (resolveLevel a.log_level).1,
          handlers := root.handlers ++ [installedHandler a] } hforb1
    refine ⟨fs', root', printed, ?_, installedHandler a :: hs, ?_, by simp [hlen]⟩
    · unfold setupIter
      rw [hok]
      exact hiter
    · rw [hhs]
      simp

/-- Witness for C8: two successive calls starting from an empty
filesystem leave two handlers on the root logger. -/
theorem claim_C8_witness :
    ∃ fs' root' printed,
      setupIter 2 { log_level := "INFO" } fsW rootW = .ok (fs', root', printed) ∧
      ∃ hs : List Handler, root'.handlers = rootW.handlers ++ hs ∧ hs.length = 2 :=
  claim_C8_not_idempotent 2 { log_level := "INFO" } fsW rootW rfl

/-- C5: a successful `setup_file_logging` has made the log directory and
all its parent segments exist, and the directory-creation step returns
without error and without change when the directory already exists. -/
theorem claim_C5_mkdir_parents (a : Args) (fs : FileSystem)
    (root : RootLogger) :
    (∀ fs' root' printed,
      setup_file_logging a fs root = .ok (fs', root', printed) →
        (∀ q ∈ prefixesOf a.log_dir, q ∈ fs'.dirs) ∧
        (a.log_dir ≠ [] → a.log_dir ∈ fs'.dirs)) ∧
    ((∀ q ∈ fs.dirs, ∀ n, n < q.length → q.take (n + 1) ∈ fs.dirs) →
      a.log_dir ∈ fs.dirs →
      mkdirParentsExistOk fs a.log_dir = .ok fs) := by
  constructor
  · intro fs' root' printed hok
    obtain ⟨-, -, fs1, h1, h2⟩ := setup_ok_inv hok
    obtain ⟨hmem, -, -, -⟩ := mkdirSeq_ok_mem _ _ _ h1
    obtain ⟨hdirs, -, -⟩ := openFileAppend_ok_dirs h2
    refine ⟨fun q hq => hdirs ▸ hmem q hq, fun hne => ?_⟩
    exact hdirs ▸ hmem a.log_dir (self_mem_prefixesOf hne)
  · intro hcl hmem
    apply mkdirSeq_id
    intro q hq
    obtain ⟨i, hi, hq⟩ := List.mem_map.mp hq
    rw [List.mem_range] at hi
    exact hq ▸ hcl a.log_dir hmem i hi

/-- Witness for C5: with an empty filesystem the directory and its
parents are created; with the directory already present the creation
step is a no-op. -/
theorem claim_C5_witness :
    ((∀ q ∈ prefixesOf [".log"],
        q ∈ (⟨[[".log"]], [([".log", "app.log"], [])], []⟩ : FileSystem).dirs) ∧
      ([".log"] ≠ ([] : List String) →
        [".log"] ∈ (⟨[[".log"]], [([".log", "app.log"], [])], []⟩ : FileSystem).dirs)) ∧
    mkdirParentsExistOk ⟨[[".log"]], [], []⟩ [".log"] = .ok ⟨[[".log"]], [], []⟩ :=
  ⟨(claim_C5_mkdir_parents { log_level := "INFO" } fsW rootW).1
      ⟨[[".log"]], [([".log", "app.log"], [])], []⟩
      ⟨20, [{ path := [".log", "app.log"], fmt := defaultLogFormat,
              maxBytes := 1024 * 1024, backupCount := 5, encoding := "utf-8" }]⟩
      [] rfl,
   (claim_C5_mkdir_parents { log_level := "INFO" } ⟨[[".log"]], [], []⟩ rootW).2
      (by decide) (by decide)⟩

/-- C3: after a successful `setup_file_logging` with a valid level and
the default format, a record at severity at or above the resolved level
appends its rendered line (which carries the logger name) to the log
file, and a record below the level leaves the filesystem unchanged. -/
theorem claim_C3_level_filtering (a : Args) (fs : FileSystem)
    (root : RootLogger) (fs' : FileSystem) (root' : RootLogger)
    (printed : List String)
    (hvalid : a.log_level ∈ validLogLevels) (hfmt : a.log_format = none)
    (hroot : root.handlers = [])
    (hok : setup_file_logging a fs root = .ok (fs', root', printed)) :
    ∀ (g : FileSystem) (rec : LogRecord),
      (levelToNum a.log_level ≤ rec.levelno →
        fileLines (emitRecord root' g rec) (a.log_dir ++ [a.log_filename]) =
          fileLines g (a.log_dir ++ [a.log_filename])
            ++ [renderFormat defaultLogFormat rec] ∧
        ∃ u v, renderFormat defaultLogFormat rec = u ++ rec.name ++ v) ∧
      (rec.levelno < levelToNum a.log_level → emitRecord root' g rec = g) := by
  obtain ⟨hroot', -, -⟩ := setup_ok_inv hok
  have hres : (resolveLevel a.log_level).1 = a.log_level := by
    simp [resolveLevel, hvalid]
  have hr2 : root' = ⟨levelToNum a.log_level, [installedHandler a]⟩ := by
    rw [hroot', hres]
    simp [hroot]
  have hfmt' : (installedHandler a).fmt = defaultLogFormat := by
    simp [installedHandler, hfmt]
  intro g rec
  refine ⟨fun hlev => ⟨?_, ?_⟩, fun hlev => ?_⟩
  · rw [hr2]
    show fileLines
        (emitRecord ⟨levelToNum a.log_level, [installedHandler a]⟩ g rec)
        (installedHandler a).path =
      fileLines g (installedHandler a).path ++ [renderFormat defaultLogFormat rec]
    rw [← hfmt']
    exact fileLines_emit_single g rec hlev
  · refine ⟨"[" ++ rec.asctime ++ "] [" ++ toString rec.process ++ "] ["
        ++ rightAlign 8 rec.levelname ++ "] [",
      "." ++ rec.funcName ++ ":" ++ rightAlign 5 (toString rec.lineno)
        ++ "] " ++ rec.message, ?_⟩
    rw [renderFormat_default]
    simp [String.append_assoc]
  · rw [hr2]
    exact emit_below hlev


/-- Filesystem after the witness run of `setup_file_logging`. -/
def fs3W : FileSystem := ⟨[[".log"]], [([".log", "app.log"], [])], []⟩

/-- Root logger after the witness run at level WARNING. -/
def root3W : RootLogger :=
  ⟨30, [{ path := [".log", "app.log"], fmt := defaultLogFormat,
          maxBytes := 1024 * 1024, backupCount := 5, encoding := "utf-8" }]⟩

/-- A DEBUG record of the witness scenario. -/
def recD : LogRecord :=
  { name := "test_level", levelno := 10, levelname := "DEBUG",
    message := "Debug message", asctime := "t", process := 1,
    funcName := "f", lineno := 1 }

/-- An INFO record of the witness scenario. -/
def recI : LogRecord :=
  { name := "test_level", levelno := 20, levelname := "INFO",
    message := "Info message", asctime := "t", process := 1,
    funcName := "f", lineno := 1 }

/-- A WARNING record of the witness scenario. -/
def recW : LogRecord :=
  { name := "test_level", levelno := 30, levelname := "WARNING",
    message := "Warning message", asctime := "t", process := 1,
    funcName := "f", lineno := 1 }

/-- An ERROR record of the witness scenario. -/
def recE : LogRecord :=
  { name := "test_level", levelno := 40, levelname := "ERROR",
    message := "Error message", asctime := "t", process := 1,
    funcName := "f", lineno := 1 }

/-- Witness for C3: at level WARNING, DEBUG and INFO records change
nothing, while WARNING and ERROR records each append their rendered
line, carrying the logger name. -/
theorem claim_C3_witness :
    emitRecord root3W fs3W recD = fs3W ∧
    emitRecord root3W fs3W recI = fs3W ∧
    (fileLines (emitRecord root3W fs3W recW) ([".log"] ++ ["app.log"]) =
      fileLines fs3W ([".log"] ++ ["app.log"])
        ++ [renderFormat defaultLogFormat recW] ∧
      ∃ u v, renderFormat defaultLogFormat recW = u ++ recW.name ++ v) ∧
    (fileLines (emitRecord root3W (emitRecord root3W fs3W recW) recE)
        ([".log"] ++ ["app.log"]) =
      fileLines (emitRecord root3W fs3W recW) ([".log"] ++ ["app.log"])
        ++ [renderFormat defaultLogFormat recE] ∧
      ∃ u v, renderFormat defaultLogFormat recE = u ++ recE.name ++ v) := by
  have H := claim_C3_level_filtering { log_level := "WARNING" } fsW rootW
    fs3W root3W [] (by decide) rfl rfl rfl
  exact ⟨(H fs3W recD).2 (by decide), (H fs3W recI).2 (by decide),
    (H fs3W recW).1 (by decide),
    (H (emitRecord root3W fs3W recW) recE).1 (by decide)⟩

/-- C9: a supplied custom format template is stored verbatim on the
installed handler, and a record carrying message `"Test message"` whose
severity passes the level check appends exactly the line
`"CUSTOM: Test message"` to the handler's file. -/
theorem claim_C9_custom_format_verbatim (a : Args) (fs : FileSystem)
    (root : RootLogger) (fs' : FileSystem) (root' : RootLogger)
    (printed : List String)
    (hfmt : a.log_format = some "CUSTOM: \x7bmessage\x7d")
    (hroot : root.handlers = [])
    (hok : setup_file_logging a fs root = .ok (fs', root', printed)) :
    ∃ h : Handler, root'.handlers = [h]
      ∧ h.fmt = "CUSTOM: \x7bmessage\x7d"
      ∧ ∀ (g : FileSystem) (rec : LogRecord),
          root'.level ≤ rec.levelno → rec.message = "Test message" →
          fileLines (emitRecord root' g rec) h.path =
            fileLines g h.path ++ ["CUSTOM: Test message"] := by
  obtain ⟨hroot', -, -⟩ := setup_ok_inv hok
  have hr2 : root' =
      ⟨levelToNum (resolveLevel a.log_level).1, [installedHandler a]⟩ := by
    rw [hroot']
    simp [hroot]
  have hfmt' : (installedHandler a).fmt = "CUSTOM: \x7bmessage\x7d" := by
    simp [installedHandler, hfmt]
  refine ⟨installedHandler a, by rw [hr2], hfmt', ?_⟩
  intro g rec hlev hmsg
  rw [hr2] at hlev ⊢
  have hline : renderFormat (installedHandler a).fmt rec = "CUSTOM: Test message" := by
    rw [hfmt', renderFormat_custom, hmsg]
    decide
  rw [← hline]
  exact fileLines_emit_single g rec hlev

/-- Root logger after the witness run with the custom format. -/
def root9W : RootLogger :=
  ⟨20, [{ path := [".log", "app.log"], fmt := "CUSTOM: \x7bmessage\x7d",
          maxBytes := 1024 * 1024, backupCount := 5, encoding := "utf-8" }]⟩

/-- Witness for C9: a concrete run with the custom format and a record
carrying the message of the test scenario. -/
theorem claim_C9_witness :
    ∃ h : Handler, root9W.handlers = [h]
      ∧ h.fmt = "CUSTOM: \x7bmessage\x7d"
      ∧ ∀ (g : FileSystem) (rec : LogRecord),
          root9W.level ≤ rec.levelno → rec.message = "Test message" →
          fileLines (emitRecord root9W g rec) h.path =
            fileLines g h.path ++ ["CUSTOM: Test message"] :=
  claim_C9_custom_format_verbatim
    { log_level := "INFO", log_format := some "CUSTOM: \x7bmessage\x7d" }
    fsW rootW ⟨[[".log"]], [([".log", "app.log"], [])], []⟩ root9W []
    rfl rfl rfl

/-- C4: the installed handler carries the given `maxBytes` and
`backupCount`, and under any sequence of writes each no larger than
`maxBytes`, the active file never exceeds `maxBytes` and at most
`backupCount` numbered backups exist. -/
theorem claim_C4_rotation_invariant (a : Args) (fs : FileSystem)
    (root : RootLogger) (fs' : FileSystem) (root' : RootLogger)
    (printed : List String)
    (hok : setup_file_logging a fs root = .ok (fs', root', printed))
    (hB : 0 < a.max_bytes) :
    ∃ h : Handler, root'.handlers = root.handlers ++ [h]
      ∧ h.maxBytes = a.max_bytes ∧ h.backupCount = a.backup_count
      ∧ ∀ writes : List Nat, (∀ l ∈ writes, l ≤ a.max_bytes) →
          (rotRun h.maxBytes h.backupCount rotInit writes).active ≤ a.max_bytes
          ∧ (rotRun h.maxBytes h.backupCount rotInit writes).backups.length
              ≤ a.backup_count := by
  obtain ⟨hroot', -, -⟩ := setup_ok_inv hok
  refine ⟨installedHandler a, by rw [hroot'], rfl, rfl, ?_⟩
  intro writes hw
  exact rotRun_inv writes a.max_bytes a.backup_count rotInit hB hw
    (by simp [rotInit]) (by simp [rotInit])

/-- Root logger after the witness run with small rotation parameters. -/
def root4W : RootLogger :=
  ⟨20, [{ path := [".log", "app.log"], fmt := defaultLogFormat,
          maxBytes := 5, backupCount := 2, encoding := "utf-8" }]⟩

/-- Witness for C4: a run with `maxBytes = 5` and `backupCount = 2`. -/
theorem claim_C4_witness :
    ∃ h : Handler, root4W.handlers = rootW.handlers ++ [h]
      ∧ h.maxBytes = 5 ∧ h.backupCount = 2
      ∧ ∀ writes : List Nat, (∀ l ∈ writes, l ≤ 5) →
          (rotRun h.maxBytes h.backupCount rotInit writes).active ≤ 5
          ∧ (rotRun h.maxBytes h.backupCount rotInit writes).backups.length ≤ 2 :=
  claim_C4_rotation_invariant
    { log_level := "INFO", max_bytes := 5, backup_count := 2 }
    fsW rootW ⟨[[".log"]], [([".log", "app.log"], [])], []⟩ root4W []
    rfl (by decide)

end LogConfig
